import Mathlib

/-! Shallow embedding of the siasisten-bot repository (bot.py and
scraper_requests.py) and proofs about its specification claims.

Conventions of the embedding:
* Python lists of vacancy dicts become `List Entry`.
* `self.data` is `()` or a pair `(datetime, list)`; we model it as
  `Option (DateTime × List Entry)`.
* Python's `%` on integers is floored modulus, i.e. Lean's `Int.emod`
  (the `%` of `Int` in Lean core), so `day % 10` translates directly.
* Exceptions that the code catches and converts to a sentinel value are
  modelled by `Option`: a `none` input stands for "the library call
  raised".
-/

namespace Siasisten

/-! Section: Data model -/

/-- One vacancy entry, as built in `get_lowongan` (scraper_requests.py):
`{"title": title, "daftar_link": daftar_link}`. -/
structure Entry where
  title : String
  daftar_link : String
deriving Repr, DecidableEq

/-! Section: `get_suffix` (bot.py, lines 30-43) -/

/-- Function `get_suffix(day)` from bot.py: ordinal suffix of a day number.
The Python `elif` chain is an exact `if .. else if` cascade; `day % 10`
is Python's floored modulus, which is `Int.emod`. -/
def get_suffix (day : Int) : String :=
  if 11 ≤ day ∧ day ≤ 13 then "th"
  else if day % 10 = 1 then "st"
  else if day % 10 = 2 then "nd"
  else if day % 10 = 3 then "rd"
  else "th"

/-! Section: Calendar arithmetic (models Python `datetime`)

The code stores timestamps with
`FMT = "%Y-%m-%d %H:%M:%S.%f%z"` and converts with
`datetime.strptime(...)` / `.strftime(...)` / `.astimezone(ZoneInfo("Asia/Jakarta"))`.
We model an aware `datetime` by its calendar fields plus a UTC offset in
minutes (Asia/Jakarta is UTC+07:00, i.e. 420 minutes; all offsets the
program ever produces are whole minutes). -/

/-- Gregorian leap-year rule, as implemented by Python's `calendar`/`datetime`. -/
def isLeap (y : Nat) : Bool :=
  y % 4 == 0 && (y % 100 != 0 || y % 400 == 0)

/-- Days in a month, as validated by Python's `datetime` constructor. -/
def daysInMonth (y m : Nat) : Nat :=
  if m = 2 then (if isLeap y then 29 else 28)
  else if m = 4 ∨ m = 6 ∨ m = 9 ∨ m = 11 then 30
  else 31

/-- An aware Python `datetime`: calendar fields plus UTC offset in minutes. -/
structure DateTime where
  year : Nat
  month : Nat
  day : Nat
  hour : Nat
  minute : Nat
  second : Nat
  micro : Nat
  offMin : Int
deriving Repr, DecidableEq

/-- The ranges Python's `datetime` constructor enforces
(`MINYEAR = 1`, `MAXYEAR = 9999`; a `timezone` offset is strictly
between -24h and +24h). -/
def DateTime.Valid (d : DateTime) : Prop :=
  1 ≤ d.year ∧ d.year ≤ 9999 ∧ 1 ≤ d.month ∧ d.month ≤ 12 ∧
  1 ≤ d.day ∧ d.day ≤ daysInMonth d.year d.month ∧
  d.hour ≤ 23 ∧ d.minute ≤ 59 ∧ d.second ≤ 59 ∧ d.micro ≤ 999999 ∧
  d.offMin.natAbs ≤ 1439

instance (d : DateTime) : Decidable d.Valid := by
  unfold DateTime.Valid
  infer_instance

/-- The UTC offset of `ZoneInfo("Asia/Jakarta")`, in minutes (+07:00). -/
def JAKARTA_OFFSET : Int := 420

/-! Section: Fixed-width decimal rendering and parsing
(models C `printf`-style zero padding used by `strftime` and the
digit-counting regexes used by `strptime`). -/

/-- The decimal digit character for `n % 10`. -/
def digitChr (n : Nat) : Char :=
  match n % 10 with
  | 0 => '0' | 1 => '1' | 2 => '2' | 3 => '3' | 4 => '4'
  | 5 => '5' | 6 => '6' | 7 => '7' | 8 => '8' | _ => '9'

/-- Zero-padded `k`-digit decimal rendering of `n` (most significant first). -/
def renderDigits : Nat → Nat → List Char
  | 0, _ => []
  | k+1, n => digitChr (n / 10 ^ k) :: renderDigits k n

/-- Numeric value of a decimal digit character, `none` otherwise. -/
def digitVal (c : Char) : Option Nat :=
  if '0' ≤ c ∧ c ≤ '9' then some (c.toNat - 48) else none

/-- Parse exactly `k` decimal digits, returning the value and the rest. -/
def parseDigits : Nat → List Char → Option (Nat × List Char)
  | 0, cs => some (0, cs)
  | _+1, [] => none
  | k+1, c :: cs =>
    match digitVal c with
    | none => none
    | some v =>
      match parseDigits k cs with
      | none => none
      | some (r, rest) => some (v * 10 ^ k + r, rest)

/-- Consume one expected character. -/
def expect (ch : Char) : List Char → Option (List Char)
  | [] => none
  | c :: cs => if c = ch then some cs else none

/-! Section: `strftime` / `strptime` with `FMT = "%Y-%m-%d %H:%M:%S.%f%z"` -/

/-- Rendering for `%z` of a whole-minute UTC offset: sign, two hour digits,
two minute digits (e.g. `+0700` for Jakarta). -/
def renderOffset (off : Int) : List Char :=
  (if off < 0 then '-' else '+') ::
    (renderDigits 2 (off.natAbs / 60) ++ renderDigits 2 (off.natAbs % 60))

/-- Model of `datetime.strftime(FMT)` for `FMT = "%Y-%m-%d %H:%M:%S.%f%z"`:
4-digit year, 2-digit month/day/hour/minute/second, 6-digit microseconds,
then the `±HHMM` offset. -/
def strftimeFMT (d : DateTime) : List Char :=
  renderDigits 4 d.year ++ '-' ::
    (renderDigits 2 d.month ++ '-' ::
      (renderDigits 2 d.day ++ ' ' ::
        (renderDigits 2 d.hour ++ ':' ::
          (renderDigits 2 d.minute ++ ':' ::
            (renderDigits 2 d.second ++ '.' ::
              (renderDigits 6 d.micro ++ renderOffset d.offMin))))))

/-- Parsing for `%z`: a sign, two hour digits, two minute digits; the
resulting offset must be a legal `timezone` offset (strictly less than
24 hours in magnitude), else `ValueError`. -/
def parseOffset : List Char → Option (Int × List Char)
  | [] => none
  | c :: cs =>
    match (if c = '+' then some (1 : Int) else if c = '-' then some (-1) else none) with
    | none => none
    | some sgn =>
      match parseDigits 2 cs with
      | none => none
      | some (h, cs1) =>
        match parseDigits 2 cs1 with
        | none => none
        | some (m, cs2) =>
          if m ≤ 59 ∧ h * 60 + m ≤ 1439 then some (sgn * (h * 60 + m), cs2)
          else none

/-- Model of `datetime.strptime(s, FMT)`: parse the fixed-layout string and apply
the range validation performed by the `strptime` regexes together with
the `datetime` constructor; any failure is a `ValueError`, modelled as
`none`.  Trailing unconverted data is also an error. -/
def strptimeFMT (s : List Char) : Option DateTime :=
  match parseDigits 4 s with
  | none => none
  | some (y, s1) =>
  match expect '-' s1 with
  | none => none
  | some s2 =>
  match parseDigits 2 s2 with
  | none => none
  | some (mo, s3) =>
  match expect '-' s3 with
  | none => none
  | some s4 =>
  match parseDigits 2 s4 with
  | none => none
  | some (dd, s5) =>
  match expect ' ' s5 with
  | none => none
  | some s6 =>
  match parseDigits 2 s6 with
  | none => none
  | some (hh, s7) =>
  match expect ':' s7 with
  | none => none
  | some s8 =>
  match parseDigits 2 s8 with
  | none => none
  | some (mi, s9) =>
  match expect ':' s9 with
  | none => none
  | some s10 =>
  match parseDigits 2 s10 with
  | none => none
  | some (ss, s11) =>
  match expect '.' s11 with
  | none => none
  | some s12 =>
  match parseDigits 6 s12 with
  | none => none
  | some (us, s13) =>
  match parseOffset s13 with
  | none => none
  | some (off, s14) =>
  if 1 ≤ y ∧ 1 ≤ mo ∧ mo ≤ 12 ∧ 1 ≤ dd ∧ dd ≤ daysInMonth y mo ∧
      hh ≤ 23 ∧ mi ≤ 59 ∧ ss ≤ 59 ∧ s14 = [] then
    some ⟨y, mo, dd, hh, mi, ss, us, off⟩
  else none

/-! Section: `astimezone` (models Python timedelta arithmetic) -/

/-- Successor day in the Gregorian calendar. -/
def nextDay : Nat × Nat × Nat → Nat × Nat × Nat
  | (y, m, d) =>
    if d < daysInMonth y m then (y, m, d + 1)
    else if m < 12 then (y, m + 1, 1)
    else (y + 1, 1, 1)

/-- Predecessor day in the Gregorian calendar. -/
def prevDay : Nat × Nat × Nat → Nat × Nat × Nat
  | (y, m, d) =>
    if 1 < d then (y, m, d - 1)
    else if 1 < m then (y, m - 1, daysInMonth y (m - 1))
    else (y - 1, 12, 31)

/-- Iterate a day-step function. -/
def iterDays (f : Nat × Nat × Nat → Nat × Nat × Nat) : Nat → Nat × Nat × Nat → Nat × Nat × Nat
  | 0, p => p
  | n+1, p => iterDays f n (f p)

/-- Shift a calendar date by a (possibly negative) number of days. -/
def shiftDays (p : Nat × Nat × Nat) (n : Int) : Nat × Nat × Nat :=
  if 0 ≤ n then iterDays nextDay n.toNat p else iterDays prevDay (-n).toNat p

/-- Add `delta` minutes to an aware datetime (Python `datetime ± timedelta`):
total minutes-of-day plus `delta`, carried into whole days with floored
division (`Int` `/` and `%` here are Euclidean, which agrees with
Python's floor semantics for the positive divisor 1440; seconds and
microseconds are untouched because all offsets here are whole minutes).
The timezone field is left to the caller. -/
def addMinutes (d : DateTime) (delta : Int) : DateTime :=
  let tot : Int := (d.hour * 60 + d.minute : Nat) + delta
  let rem : Nat := (tot % 1440).toNat
  let p := shiftDays (d.year, d.month, d.day) (tot / 1440)
  { year := p.1, month := p.2.1, day := p.2.2, hour := rem / 60, minute := rem % 60,
    second := d.second, micro := d.micro, offMin := d.offMin }

/-- Model of `datetime.astimezone(ZoneInfo("Asia/Jakarta"))`: same instant expressed
at UTC+07:00, i.e. shift the clock by the difference of offsets and set the
timezone to Jakarta. -/
def astimezoneJakarta (d : DateTime) : DateTime :=
  { addMinutes d (JAKARTA_OFFSET - d.offMin) with offMin := JAKARTA_OFFSET }

/-! Section: The persisted file (`data.json`) and `load_data` / `write_json`
(bot.py, lines 67-96) -/

/-- Model of the contents of `data.json`.
`corrupt` stands for a file `json.load` cannot parse (or whose top level
is not an object).  In `record`, a `none` field models a missing key
(`KeyError`) or a value of the wrong type (`TypeError` inside
`strptime`); the `data` value itself is stored by `load_data` without
validation, so we model it as the entry list the rest of the program
assumes. -/
inductive FileContent where
  | corrupt : FileContent
  | record (time : Option (List Char)) (data : Option (List Entry)) : FileContent
deriving Repr, DecidableEq

/-- Function `load_data` (bot.py lines 67-84) as a function of the file state
(`none` = no `data.json`).  Every exception in the `try` block —
`json.load` failure, missing key, `strptime`/`astimezone` failure — is
caught and yields the empty state `()` (here `none`). -/
def load_data : Option FileContent → Option (DateTime × List Entry)
  | none => none
  | some .corrupt => none
  | some (.record tm dat) =>
    match tm with
    | none => none
    | some ts =>
      match strptimeFMT ts with
      | none => none
      | some t =>
        match dat with
        | none => none
        | some entries => some (astimezoneJakarta t, entries)

/-- Function `write_json` (bot.py lines 86-96): serialize the pair as
`{"time": data[0].strftime(FMT), "data": data[1]}`.  (The surrounding
`try` swallows write failures; this models the successful write.) -/
def write_json (d : DateTime × List Entry) : FileContent :=
  .record (some (strftimeFMT d.1)) (some d.2)

/-! Section: The diff (inlined identically in `perform_update` lines 287-293
and `update_list_lowongan` lines 173-182) -/

/-- The new-entry computation of bot.py: when there is no stored data all
fetched entries are new, otherwise keep the fetched entries (in order)
whose title is not in the set of stored titles.  Python's
`set(...)`-membership on titles is exact string membership, i.e.
`List.contains` on the mapped titles. -/
def new_entries_of (prev : Option (List Entry)) (new_data : List Entry) : List Entry :=
  match prev with
  | none => new_data
  | some old => new_data.filter (fun e => !((old.map (fun p => p.title)).contains e.title))

/-- The diff as worded by the spec (DiffEngine): build the set of titles
present in `previous`; return, in the original order of `current`, every
entry whose title is not in that set. -/
def diffSpec (previous : Option (List Entry)) (current : List Entry) : List Entry :=
  match previous with
  | none => current
  | some old => current.filter (fun e => decide (e.title ∉ (old.map Entry.title).toFinset))

/-! Section: Bot state and the two update paths (bot.py) -/

/-- The mutable state the update paths touch: `self.data` and the
`data.json` file. -/
structure BotState where
  data : Option (DateTime × List Entry)
  file : Option FileContent
deriving Repr, DecidableEq

/-- The embed sent by `send_vacancy_update` (bot.py lines 242-267),
reduced to what the claims mention: whether it is the
"New vacancies found!" embed, and the list of entries in its body. -/
structure Notification where
  isNew : Bool
  entries : List Entry
deriving Repr, DecidableEq

/-- Function `send_vacancy_update` (bot.py lines 242-267): empty input gives the
"No new vacancies found." embed, otherwise the "New vacancies found!"
embed listing exactly the given entries. -/
def send_vacancy_update (new_entries : List Entry) : Notification :=
  if new_entries.isEmpty then ⟨false, []⟩ else ⟨true, new_entries⟩

/-- Function `perform_update` (bot.py lines 271-302) as a state transition.
Arguments: prior state, whether `self.scraper` is initialized, the list
returned by `get_lowongan`, and `datetime.now(JAKARTA_TZ)`.  Returns the
new state and the argument passed to `send_vacancy_update` (`none` when
no notification is sent).  Note the code persists and notifies only
inside `if new_entries:`. -/
def perform_update (st : BotState) (scraper : Bool) (fetched : List Entry)
    (now : DateTime) : BotState × Option (List Entry) :=
  if !scraper then (st, none)
  else if fetched.isEmpty then (st, none)
  else
    let new_entries := new_entries_of (st.data.map (fun p => p.2)) fetched
    if new_entries.isEmpty then (st, none)
    else ({ data := some (now, fetched), file := some (write_json (now, fetched)) },
          some new_entries)

/-- The reply embed of the manual `-update` command, reduced to its kind
and payload. -/
inductive Reply where
  | scraperUnavailable : Reply
  | fetchFailed : Reply
  | newVacancies (entries : List Entry) : Reply
  | noNew : Reply
deriving Repr, DecidableEq

/-- Function `update_list_lowongan` (bot.py lines 156-207) as a state transition.
The outer condition is Python's
`if not self.data or set(new titles) != set(old titles)`; in every path
past the two early returns the code unconditionally runs
`self.data = (now, new_data); self.write_json(self.data)` (lines 205-206). -/
def update_list_lowongan (st : BotState) (scraper : Bool) (fetched : List Entry)
    (now : DateTime) : BotState × Reply :=
  if !scraper then (st, .scraperUnavailable)
  else if fetched.isEmpty then (st, .fetchFailed)
  else
    let cond : Bool :=
      match st.data with
      | none => true
      | some (_, old) =>
        decide ((fetched.map (fun e => e.title)).toFinset ≠ (old.map (fun e => e.title)).toFinset)
    let reply :=
      if cond then
        let new_entries := new_entries_of (st.data.map (fun p => p.2)) fetched
        if new_entries.isEmpty then Reply.noNew else Reply.newVacancies new_entries
      else Reply.noNew
    ({ data := some (now, fetched), file := some (write_json (now, fetched)) }, reply)

/-! Section: The scraper (scraper_requests.py) -/

/-- The login URL and portal base URL (scraper_requests.py lines 22, 73-74). -/
def login_url : String := "https://siasisten.cs.ui.ac.id/login/"

def base_url : String := "https://siasisten.cs.ui.ac.id"

/-- What `login` observes of the login page: the `value` of the hidden
`csrfmiddlewaretoken` input, if that input exists. -/
structure LoginPage where
  csrf : Option String
deriving Repr, DecidableEq

/-- What `login` observes of the login POST response: its final URL. -/
structure PostResponse where
  url : String
deriving Repr, DecidableEq

/-- The outside world as seen by one `login()` call: the result of the
GET of the login page (`none` = a network/parse exception, including
`raise_for_status`) and of the credential POST (`none` = an exception). -/
structure LoginEnv where
  page : Option LoginPage
  postResp : Option PostResponse
deriving Repr, DecidableEq

/-- Function `login` (scraper_requests.py lines 21-70).  Any exception anywhere in
the `try` block is caught and converted to `False`; a missing CSRF input
returns `False`; otherwise success is exactly
`login_response.url != login_url`. -/
def login (env : LoginEnv) : Bool :=
  match env.page with
  | none => false
  | some pg =>
    match pg.csrf with
    | none => false
    | some _ =>
      match env.postResp with
      | none => false
      | some resp => if resp.url = login_url then false else true

/-- Constructor `ScraperRequests.__init__` (scraper_requests.py lines 15-19): raises
`Exception("Login failed.")` exactly when `login()` returns `False`. -/
def scraper_init (env : LoginEnv) : Except String Unit :=
  if login env then Except.ok () else Except.error "Login failed."

/-! Section: `get_lowongan` (scraper_requests.py lines 72-127) -/

/-- What `get_lowongan` observes of one `<td>` cell: its text content as
the fragments separated by line-break-producing tags (so that
`get_text(separator="\n")` is their `"\n"`-join), and the `href` of the
first anchor with an `href` attribute, if any. -/
structure Cell where
  fragments : List String
  href : Option String
deriving Repr, DecidableEq

/-- Model of `cell.get_text(separator="\n").strip()`. -/
def cellText (c : Cell) : String :=
  (String.intercalate "\n" c.fragments).trim

/-- A fetched listing page: its `<table>` elements, each a list of `<tr>`
rows, each a list of `<td>` cells. -/
structure Page where
  tables : List (List (List Cell))
deriving Repr, DecidableEq

/-- The default cell (never actually read: it is only the `getD` default
behind a length bound). -/
def defaultCell : Cell := ⟨[], none⟩

/-- The entry built from one row (body of the `for` loop, lines 100-120):
title from column index 1 via `get_text(separator="\n").strip()`, link
from column index 8 as `base_url + href` of its first anchor, or the
sentinel `"Link not available"`. -/
def rowEntry (cols : List Cell) : Entry :=
  { title := cellText (cols.getD 1 defaultCell),
    daftar_link :=
      match (cols.getD 8 defaultCell).href with
      | some h => base_url ++ h
      | none => "Link not available" }

/-- Function `get_lowongan` as the code writes it: `none` input models any raised
network/parsing exception (caught, logs, returns `[]`); otherwise take
the first table, return `[]` when it has at most one row, else loop over
`rows[1:]` appending an entry per row with at least 9 columns. -/
def get_lowongan (page : Option Page) : List Entry :=
  match page with
  | none => []
  | some p =>
    match p.tables with
    | [] => []
    | table :: _ =>
      if table.length ≤ 1 then []
      else
        (table.drop 1).foldl
          (fun acc cols => if cols.length < 9 then acc else acc ++ [rowEntry cols]) []

/-- Function `fetchListing` as worded by the spec: locate the first table, treat
row 0 as a header and skip it, keep each later row with at least 9
columns, extracting title and apply link as described; empty sequence on
failure. -/
def fetchListing_spec (page : Option Page) : List Entry :=
  match page with
  | none => []
  | some p =>
    match p.tables with
    | [] => []
    | table :: _ =>
      (table.drop 1).filterMap
        (fun cols => if cols.length < 9 then none else some (rowEntry cols))

/-! Section: Concrete sample values (used by counterexamples and witnesses) -/

def entryA : Entry := ⟨"Asisten Dosen A", "https://siasisten.cs.ui.ac.id/daftar/5"⟩

def entryB : Entry := ⟨"Asisten Dosen B", "https://siasisten.cs.ui.ac.id/daftar/6"⟩

def entryC : Entry := ⟨"Asisten Dosen C", "https://siasisten.cs.ui.ac.id/daftar/7"⟩

/-- A sample Jakarta-aware timestamp. -/
def sampleTime : DateTime := ⟨2025, 10, 12, 9, 30, 0, 123456, 420⟩

/-- A later sample Jakarta-aware timestamp. -/
def sampleTime2 : DateTime := ⟨2025, 10, 12, 9, 35, 0, 654321, 420⟩

/-- A stored state holding entries A and B (no backing file modelled). -/
def stAB : BotState := ⟨some (sampleTime, [entryA, entryB]), none⟩

/-! Section: helper lemmas -/

theorem contains_titles_eq (old : List Entry) (a : String) :
    (old.map (fun p => p.title)).contains a = decide (a ∈ (old.map Entry.title).toFinset) := by
  simp [List.mem_toFinset]

theorem new_entries_of_eq_diffSpec (prev : Option (List Entry)) (current : List Entry) :
    new_entries_of prev current = diffSpec prev current := by
  cases prev with
  | none => rfl
  | some old =>
    simp only [new_entries_of, diffSpec]
    refine List.filter_congr (fun e _ => ?_)
    rw [contains_titles_eq, decide_not]

theorem new_entries_of_sublist (prev : Option (List Entry)) (current : List Entry) :
    (new_entries_of prev current).Sublist current := by
  cases prev with
  | none => exact List.Sublist.refl _
  | some old => exact List.filter_sublist _

theorem digitVal_digitChr (n : Nat) : digitVal (digitChr n) = some (n % 10) := by
  have h : n % 10 < 10 := Nat.mod_lt _ (by norm_num)
  simp only [digitChr]
  generalize n % 10 = k at h ⊢
  interval_cases k <;> decide

theorem parseDigits_renderDigits (k : Nat) (n : Nat) (rest : List Char) :
    parseDigits k (renderDigits k n ++ rest) = some (n % 10 ^ k, rest) := by
  induction k generalizing n with
  | zero => simp [renderDigits, parseDigits, Nat.mod_one]
  | succ k ih =>
    have hsplit : n % 10 ^ (k + 1) = n / 10 ^ k % 10 * 10 ^ k + n % 10 ^ k := by
      rw [Nat.mod_pow_succ]
      ring
    simp only [renderDigits, List.cons_append, List.append_eq, parseDigits,
      digitVal_digitChr, ih, hsplit]

theorem parseDigits_render_lt (k n : Nat) (h : n < 10 ^ k) (rest : List Char) :
    parseDigits k (renderDigits k n ++ rest) = some (n, rest) := by
  rw [parseDigits_renderDigits, Nat.mod_eq_of_lt h]

theorem expect_cons (c : Char) (rest : List Char) : expect c (c :: rest) = some rest := by
  simp [expect]

theorem parseOffset_renderOffset (off : Int) (h : off.natAbs ≤ 1439) (rest : List Char) :
    parseOffset (renderOffset off ++ rest) = some (off, rest) := by
  have hh : off.natAbs / 60 < 10 ^ 2 := by omega
  have hm : off.natAbs % 60 < 10 ^ 2 := by omega
  have hcond : off.natAbs % 60 ≤ 59 ∧ off.natAbs / 60 * 60 + off.natAbs % 60 ≤ 1439 := by
    omega
  have hcast : ((off.natAbs / 60 : Nat) : Int) * 60 + ((off.natAbs % 60 : Nat) : Int)
      = (off.natAbs : Int) := by omega
  by_cases hneg : off < 0
  · have hval : (-1 : Int) * (off.natAbs : Int) = off := by omega
    simp only [renderOffset, if_pos hneg, List.cons_append, List.append_assoc, parseOffset,
      parseDigits_render_lt _ _ hh, parseDigits_render_lt _ _ hm,
      if_neg (show ¬ ('-' : Char) = '+' by decide),
      if_pos (show ('-' : Char) = '-' from rfl), if_true, if_pos hcond, hcast, hval]
  · have hval : (1 : Int) * (off.natAbs : Int) = off := by omega
    simp only [renderOffset, if_neg hneg, List.cons_append, List.append_assoc, parseOffset,
      parseDigits_render_lt _ _ hh, parseDigits_render_lt _ _ hm,
      if_pos (show ('+' : Char) = '+' from rfl), if_true, if_pos hcond, hcast, hval]

theorem shiftDays_zero (p : Nat × Nat × Nat) : shiftDays p 0 = p := by
  simp [shiftDays, iterDays]

theorem daysInMonth_le (y m : Nat) : daysInMonth y m ≤ 31 := by
  simp only [daysInMonth]
  split
  · split <;> omega
  · split <;> omega

/-- Parsing inverts rendering: `strptime` inverts `strftime` on every valid aware datetime (year
rendered with four digits, offset as `±HHMM`). -/
theorem strptime_strftime_roundtrip (d : DateTime) (hd : d.Valid) :
    strptimeFMT (strftimeFMT d) = some d := by
  obtain ⟨h1, h2, h3, h4, h5, h6, h7, h8, h9, h10, h11⟩ := hd
  have hy : d.year < 10 ^ 4 := by omega
  have hmo : d.month < 10 ^ 2 := by omega
  have hdd : d.day < 10 ^ 2 := by
    have := daysInMonth_le d.year d.month
    omega
  have hhh : d.hour < 10 ^ 2 := by omega
  have hmi : d.minute < 10 ^ 2 := by omega
  have hss : d.second < 10 ^ 2 := by omega
  have hus : d.micro < 10 ^ 6 := by omega
  have hoffp : parseOffset (renderOffset d.offMin) = some (d.offMin, []) := by
    have h0 := parseOffset_renderOffset d.offMin h11 []
    simpa using h0
  simp only [strftimeFMT, strptimeFMT,
    parseDigits_render_lt _ _ hy, expect_cons,
    parseDigits_render_lt _ _ hmo, parseDigits_render_lt _ _ hdd,
    parseDigits_render_lt _ _ hhh, parseDigits_render_lt _ _ hmi,
    parseDigits_render_lt _ _ hss, parseDigits_render_lt _ _ hus, hoffp]
  simp [h1, h3, h4, h5, h6, h7, h8, h9]

/-- Conversion `astimezone(ZoneInfo("Asia/Jakarta"))` is the identity on a datetime
already carrying the Jakarta offset. -/
theorem astimezoneJakarta_of_jakarta (d : DateTime) (hv : d.Valid)
    (hoff : d.offMin = JAKARTA_OFFSET) : astimezoneJakarta d = d := by
  rcases d with ⟨y, mo, dd, hh, mi, ss, us, off⟩
  simp only [DateTime.Valid] at hv
  simp only at hoff
  obtain ⟨h1, h2, h3, h4, h5, h6, h7, h8, h9, h10, h11⟩ := hv
  subst hoff
  have he : ((hh * 60 + mi : Nat) : Int) / 1440 = 0 := by omega
  have hm2 : ((hh * 60 + mi : Nat) : Int) % 1440 = ((hh * 60 + mi : Nat) : Int) := by omega
  simp only [astimezoneJakarta, addMinutes, JAKARTA_OFFSET, sub_self, add_zero, he, hm2,
    shiftDays_zero, Int.toNat_natCast, DateTime.mk.injEq, true_and, and_true]
  omega

theorem get_lowongan_loop (rows : List (List Cell)) (acc : List Entry) :
    rows.foldl (fun acc cols => if cols.length < 9 then acc else acc ++ [rowEntry cols]) acc
      = acc ++ rows.filterMap
          (fun cols => if cols.length < 9 then none else some (rowEntry cols)) := by
  induction rows generalizing acc with
  | nil => simp
  | cons r rs ih =>
    by_cases h : r.length < 9
    · simp [List.foldl_cons, List.filterMap_cons, h, ih]
    · simp [List.foldl_cons, List.filterMap_cons, h, ih]

/-! Section: claim theorems -/

/-- C8: `get_suffix` follows the exact ordinal-suffix rule: days 11-13
always give "th"; otherwise last digit (`day % 10`, Python's floored
modulus) 1→"st", 2→"nd", 3→"rd", else "th"; in particular the seven
listed values. -/
theorem get_suffix_spec :
    (∀ day : Int,
      (11 ≤ day ∧ day ≤ 13 → get_suffix day = "th") ∧
      (¬(11 ≤ day ∧ day ≤ 13) →
        get_suffix day =
          if day % 10 = 1 then "st"
          else if day % 10 = 2 then "nd"
          else if day % 10 = 3 then "rd" else "th")) ∧
    get_suffix 1 = "st" ∧ get_suffix 2 = "nd" ∧ get_suffix 3 = "rd" ∧
    get_suffix 11 = "th" ∧ get_suffix 12 = "th" ∧ get_suffix 13 = "th" ∧
    get_suffix 21 = "st" := by
  refine ⟨fun day => ⟨fun h => ?_, fun h => ?_⟩, by decide, by decide, by decide,
    by decide, by decide, by decide, by decide⟩
  · simp [get_suffix, h]
  · simp [get_suffix, h]

/-- Witness for C8 at day 12. -/
theorem get_suffix_spec_witness :
    (11 ≤ (12 : Int) ∧ (12 : Int) ≤ 13) ∧ get_suffix 12 = "th" :=
  ⟨by decide, (get_suffix_spec.1 12).1 (by decide)⟩

/-- C2: the diff of bot.py equals the spec's DiffEngine: empty previous
gives all of current; otherwise the entries of current, in order, whose
title is not in the title set of previous; and the diff is always a
subsequence of current.  The spec's example `diff([A,B],[A,B,C]) = [C]`
is included. -/
theorem diff_matches_spec :
    (∀ current, new_entries_of none current = current) ∧
    (∀ prev current, new_entries_of (some prev) current =
      current.filter (fun e => decide (e.title ∉ (prev.map Entry.title).toFinset))) ∧
    (∀ prevOpt current, (new_entries_of prevOpt current).Sublist current) ∧
    new_entries_of (some [entryA, entryB]) [entryA, entryB, entryC] = [entryC] := by
  refine ⟨fun current => rfl, fun prev current => ?_, new_entries_of_sublist, by decide⟩
  have h := new_entries_of_eq_diffSpec (some prev) current
  simpa [diffSpec] using h

/-- C3: an empty fetch changes nothing: both `perform_update` and the
manual command return with the prior state (in-memory snapshot and file)
untouched, and `perform_update` sends no notification. -/
theorem empty_fetch_no_state_change (st : BotState) (scraper : Bool) (now : DateTime) :
    perform_update st scraper [] now = (st, none) ∧
    (update_list_lowongan st scraper [] now).1 = st := by
  constructor
  · cases scraper <;> simp [perform_update]
  · cases scraper <;> simp [update_list_lowongan]

/-- C10: for every non-empty fetch, the manual `-update` command
unconditionally replaces the in-memory snapshot by `(now, fetched)` and
writes it to the backing file, even when the old and new title sets are
equal. -/
theorem manual_update_always_persists (st : BotState) (fetched : List Entry)
    (now : DateTime) (h : fetched ≠ []) :
    (update_list_lowongan st true fetched now).1 =
      { data := some (now, fetched), file := some (write_json (now, fetched)) } := by
  cases fetched with
  | nil => exact absurd rfl h
  | cons a l => simp [update_list_lowongan]

/-- Witness for C10 at a fetch whose title set equals the stored one. -/
theorem manual_update_always_persists_witness :
    ([entryA] ≠ ([] : List Entry)) ∧
    (update_list_lowongan ⟨some (sampleTime, [entryA]), none⟩ true [entryA] sampleTime2).1 =
      { data := some (sampleTime2, [entryA]),
        file := some (write_json (sampleTime2, [entryA])) } :=
  ⟨by decide, manual_update_always_persists ⟨some (sampleTime, [entryA]), none⟩ [entryA]
    sampleTime2 (by decide)⟩

/-- C9: on the first successful non-empty fetch with empty prior state,
the timer update treats every fetched entry as new: it stores and
persists `(now, fetched)` and passes the full fetched list to
`send_vacancy_update`, which produces the "New vacancies found!" embed
listing every fetched entry. -/
theorem first_fetch_notifies_full_list (file0 : Option FileContent)
    (fetched : List Entry) (now : DateTime) (h : fetched ≠ []) :
    perform_update ⟨none, file0⟩ true fetched now =
      ({ data := some (now, fetched), file := some (write_json (now, fetched)) },
        some fetched) ∧
    send_vacancy_update fetched = ⟨true, fetched⟩ := by
  cases fetched with
  | nil => exact absurd rfl h
  | cons a l =>
    constructor
    · simp [perform_update, new_entries_of]
    · simp [send_vacancy_update]

/-- Witness for C9 on a two-entry first fetch. -/
theorem first_fetch_notifies_full_list_witness :
    ([entryA, entryB] ≠ ([] : List Entry)) ∧
    perform_update ⟨none, none⟩ true [entryA, entryB] sampleTime =
      ({ data := some (sampleTime, [entryA, entryB]),
         file := some (write_json (sampleTime, [entryA, entryB])) },
        some [entryA, entryB]) :=
  ⟨by decide, (first_fetch_notifies_full_list none [entryA, entryB] sampleTime (by decide)).1⟩

/-- C5: `login` returns `true` exactly when the GET, the CSRF extraction
and the POST all succeed and the post-login response URL differs from the
login URL; it returns `false` (it never raises) when the GET raised, the
CSRF input is absent, or the POST raised; and `ScraperRequests.__init__`
propagates `Exception("Login failed.")` exactly when `login` returns
`false`. -/
theorem login_spec (env : LoginEnv) :
    (login env = true ↔
      ∃ pg tok resp, env.page = some pg ∧ pg.csrf = some tok ∧
        env.postResp = some resp ∧ resp.url ≠ login_url) ∧
    (env.page = none → login env = false) ∧
    (∀ pg, env.page = some pg → pg.csrf = none → login env = false) ∧
    (env.postResp = none → login env = false) ∧
    (scraper_init env = Except.error "Login failed." ↔ login env = false) := by
  obtain ⟨pg, pr⟩ := env
  refine ⟨?_, ?_, ?_, ?_, ?_⟩
  · cases pg with
    | none => simp [login]
    | some p =>
      cases hc : p.csrf with
      | none => simp [login, hc]
      | some tok =>
        cases pr with
        | none => simp [login, hc]
        | some resp =>
          by_cases hu : resp.url = login_url
          · simp [login, hc, hu]
          · simp [login, hc, hu]
  · intro h
    cases h
    rfl
  · intro p hp hc
    cases hp
    simp [login, hc]
  · intro h
    cases h
    cases pg with
    | none => rfl
    | some p =>
      obtain ⟨csrf⟩ := p
      cases csrf <;> rfl
  · cases hl : login ⟨pg, pr⟩ <;> simp [scraper_init, hl]

/-- Witness for C5: a redirected POST response logs in successfully. -/
theorem login_spec_witness :
    login ⟨some ⟨some "tok"⟩, some ⟨"https://siasisten.cs.ui.ac.id/"⟩⟩ = true :=
  (login_spec ⟨some ⟨some "tok"⟩, some ⟨"https://siasisten.cs.ui.ac.id/"⟩⟩).1.mpr
    ⟨⟨some "tok"⟩, "tok", ⟨"https://siasisten.cs.ui.ac.id/"⟩, rfl, rfl, rfl, by decide⟩

/-- C7: `load_data` maps every bad file state — absent file, corrupt
JSON, missing `"time"` key, missing `"data"` key, unparseable timestamp —
to the empty state `()` instead of raising. -/
theorem load_bad_file_empty :
    load_data none = none ∧
    load_data (some .corrupt) = none ∧
    (∀ dat, load_data (some (.record none dat)) = none) ∧
    (∀ ts, load_data (some (.record (some ts) none)) = none) ∧
    (∀ ts dat, strptimeFMT ts = none → load_data (some (.record (some ts) dat)) = none) := by
  refine ⟨rfl, rfl, fun dat => rfl, fun ts => ?_, fun ts dat h => ?_⟩
  · simp only [load_data]
    cases strptimeFMT ts <;> rfl
  · simp [load_data, h]

/-- Witness for C7 on a file whose timestamp does not parse. -/
theorem load_bad_file_empty_witness :
    strptimeFMT ['x'] = none ∧
    load_data (some (.record (some ['x']) (some [entryA]))) = none :=
  ⟨by decide, load_bad_file_empty.2.2.2.2 ['x'] (some [entryA]) (by decide)⟩

/-- C1 counterexample: with stored entries `[A, B]`, a successful
non-empty fetch of `[A]` has an empty diff, and `perform_update` then
leaves the stored snapshot (and file) untouched instead of replacing it
with the fresh fetch `(now, [A])`. -/
theorem timer_update_keeps_stale_counterexample :
    perform_update stAB true [entryA] sampleTime2 = (stAB, none) ∧
    stAB.data ≠ some (sampleTime2, [entryA]) := by
  constructor
  · decide
  · decide

/-- C1 as amended: after a successful non-empty fetch, `perform_update`
replaces and persists the stored snapshot as `(now, fetched)` exactly
when the diff against the stored snapshot is non-empty; when the diff is
empty it performs no state change at all. -/
theorem timer_update_amended (st : BotState) (fetched : List Entry) (now : DateTime)
    (h : fetched ≠ []) :
    (new_entries_of (st.data.map (fun p => p.2)) fetched ≠ [] →
      perform_update st true fetched now =
        ({ data := some (now, fetched), file := some (write_json (now, fetched)) },
          some (new_entries_of (st.data.map (fun p => p.2)) fetched))) ∧
    (new_entries_of (st.data.map (fun p => p.2)) fetched = [] →
      perform_update st true fetched now = (st, none)) := by
  cases fetched with
  | nil => exact absurd rfl h
  | cons a l =>
    constructor
    · intro hne
      simp [perform_update, List.isEmpty_iff, hne]
    · intro hne
      simp [perform_update, List.isEmpty_iff, hne]

/-- Witness for the amended C1 on a first fetch (non-empty diff). -/
theorem timer_update_amended_witness :
    ([entryC] ≠ ([] : List Entry)) ∧
    (new_entries_of ((⟨none, none⟩ : BotState).data.map (fun p => p.2)) [entryC] ≠ []) ∧
    perform_update ⟨none, none⟩ true [entryC] sampleTime =
      ({ data := some (sampleTime, [entryC]),
         file := some (write_json (sampleTime, [entryC])) }, some [entryC]) :=
  ⟨by decide, by decide,
    (timer_update_amended ⟨none, none⟩ [entryC] sampleTime (by decide)).1 (by decide)⟩

/-- C4: `get_lowongan` is exactly the spec's `fetchListing`: `[]` on any
failure, first table only, row 0 skipped as header, rows with fewer than
9 columns skipped, title from column index 1 with line breaks as
newlines then trimmed, apply link from the first anchor of column index
8 resolved against the base URL or the sentinel string. -/
theorem get_lowongan_matches_spec (page : Option Page) :
    get_lowongan page = fetchListing_spec page ∧ get_lowongan none = [] := by
  refine ⟨?_, rfl⟩
  cases page with
  | none => rfl
  | some p =>
    cases htab : p.tables with
    | nil => simp [get_lowongan, fetchListing_spec, htab]
    | cons table rest =>
      simp only [get_lowongan, fetchListing_spec, htab]
      by_cases hlen : table.length ≤ 1
      · have hdrop : table.drop 1 = [] := List.drop_eq_nil_of_le hlen
        simp [hlen, hdrop]
      · simp only [hlen, if_false]
        exact get_lowongan_loop (table.drop 1) []

/-- C6: round-trip of the store.  For every snapshot whose timestamp is a
valid aware datetime at the configured (Jakarta) offset — which is how
every snapshot of the program is stamped, via `datetime.now(JAKARTA_TZ)`
— `write_json` followed by `load_data` returns the identical snapshot:
the timestamp to full `FMT` precision (microseconds and timezone offset
included) and the identical entry sequence. -/
theorem save_load_roundtrip (t : DateTime) (entries : List Entry)
    (hv : t.Valid) (hoff : t.offMin = JAKARTA_OFFSET) :
    load_data (some (write_json (t, entries))) = some (t, entries) := by
  simp only [write_json, load_data, strptime_strftime_roundtrip t hv,
    astimezoneJakarta_of_jakarta t hv hoff]

/-- Witness for C6 at a concrete timestamp with microseconds. -/
theorem save_load_roundtrip_witness :
    (sampleTime.Valid ∧ sampleTime.offMin = JAKARTA_OFFSET) ∧
    load_data (some (write_json (sampleTime, [entryA]))) = some (sampleTime, [entryA]) :=
  ⟨⟨by decide, rfl⟩, save_load_roundtrip sampleTime [entryA] (by decide) rfl⟩

end Siasisten
